import Mathlib

/-!
Shallow embedding of the avatar rendering core of this repository
(`Minimal/Avatar.cpp` and its second copy in the unnamed source file):
transform math, skeleton pose evaluation, mesh/texture loading,
texture-sampler and material binding, render traversal and the frame
update driver.  Machine floats are modelled by exact rationals; GPU
calls are modelled by the data they would upload.
-/

/-- 4x4 matrix over the rationals, standing for `glm::mat4`
(mathematical row-column convention; glm stores columns). -/
abbrev Mat4 := Matrix (Fin 4) (Fin 4) ℚ

/-- `ovrAvatarVector3f`: a 3-component vector. -/
structure OvrAvatarVector3f where
  x : ℚ
  y : ℚ
  z : ℚ
deriving DecidableEq, Repr

/-- `ovrAvatarVector4f`: a 4-component vector. -/
structure OvrAvatarVector4f where
  x : ℚ
  y : ℚ
  z : ℚ
  w : ℚ
deriving DecidableEq, Repr

/-- `ovrAvatarQuatf`: a quaternion with components x, y, z, w. -/
structure OvrAvatarQuatf where
  x : ℚ
  y : ℚ
  z : ℚ
  w : ℚ
deriving DecidableEq, Repr

/-- `ovrAvatarTransform`: position, orientation and scale. -/
structure OvrAvatarTransform where
  position : OvrAvatarVector3f
  orientation : OvrAvatarQuatf
  scale : OvrAvatarVector3f
deriving DecidableEq, Repr

instance : Inhabited OvrAvatarTransform :=
  ⟨⟨⟨0, 0, 0⟩, ⟨0, 0, 0, 1⟩, ⟨1, 1, 1⟩⟩⟩

/-- `glm::translate(position)`: identity with the translation in the
last column (column-vector convention). -/
def glmTranslate (p : OvrAvatarVector3f) : Mat4 :=
  Matrix.of
    ![![1, 0, 0, p.x],
      ![0, 1, 0, p.y],
      ![0, 0, 1, p.z],
      ![0, 0, 0, 1]]

/-- `glm::mat4_cast(orientation)`: rotation matrix of a quaternion,
entry for entry as glm computes it (no normalisation). -/
def glmMat4Cast (q : OvrAvatarQuatf) : Mat4 :=
  Matrix.of
    ![![1 - 2 * (q.y * q.y + q.z * q.z), 2 * (q.x * q.y - q.w * q.z),
       2 * (q.x * q.z + q.w * q.y), 0],
      ![2 * (q.x * q.y + q.w * q.z), 1 - 2 * (q.x * q.x + q.z * q.z),
       2 * (q.y * q.z - q.w * q.x), 0],
      ![2 * (q.x * q.z - q.w * q.y), 2 * (q.y * q.z + q.w * q.x),
       1 - 2 * (q.x * q.x + q.y * q.y), 0],
      ![0, 0, 0, 1]]

/-- `glm::scale(scale)`: diagonal scale matrix. -/
def glmScale (s : OvrAvatarVector3f) : Mat4 :=
  Matrix.of
    ![![s.x, 0, 0, 0],
      ![0, s.y, 0, 0],
      ![0, 0, s.z, 0],
      ![0, 0, 0, 1]]

/-- `_glmFromOvrAvatarTransform`: composes translation x rotation x
scale, in that order (TRS). -/
def glmFromOvrAvatarTransform (t : OvrAvatarTransform) : Mat4 :=
  glmTranslate t.position * glmMat4Cast t.orientation * glmScale t.scale

/-- `ovrAvatarSkinnedMeshPose`: a flat joint array, each joint a local
transform plus a signed parent index (negative = root).  The joint
count is the length of `jointTransform`. -/
structure OvrAvatarSkinnedMeshPose where
  jointTransform : List OvrAvatarTransform
  jointParents : List Int
deriving DecidableEq, Repr

/-- Local matrix of joint `i` of a pose, as `_computeWorldPose`
obtains it from `_glmFromOvrAvatarTransform`. -/
def jointLocalMat (pose : OvrAvatarSkinnedMeshPose) (i : Nat) : Mat4 :=
  glmFromOvrAvatarTransform (pose.jointTransform.getD i default)

/-- Parent index of joint `i` (out-of-range reads give 0, which the
theorems never rely on). -/
def jointParent (pose : OvrAvatarSkinnedMeshPose) (i : Nat) : Int :=
  pose.jointParents.getD i 0

/-- The first `n` iterations of the loop of `_computeWorldPose`: the
loop body at index `i` appends `worldPose[i]`, reading back the entry
written for the parent when the joint is not a root. -/
def computeWorldPoseN (pose : OvrAvatarSkinnedMeshPose) : Nat → List Mat4
  | 0 => []
  | n + 1 =>
    let world := computeWorldPoseN pose n
    let locl := jointLocalMat pose n
    let parentIndex := jointParent pose n
    if parentIndex < 0 then
      world ++ [locl]
    else
      world ++ [world.getD parentIndex.toNat 0 * locl]

/-- `_computeWorldPose`: one forward pass over the whole joint array. -/
def computeWorldPose (pose : OvrAvatarSkinnedMeshPose) : List Mat4 :=
  computeWorldPoseN pose pose.jointTransform.length

theorem computeWorldPoseN_length (pose : OvrAvatarSkinnedMeshPose) :
    ∀ n, (computeWorldPoseN pose n).length = n := by
  intro n
  induction n with
  | zero => rfl
  | succ n ih =>
    simp only [computeWorldPoseN]
    split <;> simp [ih]

theorem computeWorldPose_length (pose : OvrAvatarSkinnedMeshPose) :
    (computeWorldPose pose).length = pose.jointTransform.length :=
  computeWorldPoseN_length pose _

/-- Entries already written are not changed by later loop iterations. -/
theorem computeWorldPoseN_getD_mono (pose : OvrAvatarSkinnedMeshPose)
    {m n : Nat} (hmn : m ≤ n) {i : Nat} (hi : i < m) :
    (computeWorldPoseN pose n).getD i 0 = (computeWorldPoseN pose m).getD i 0 := by
  induction n with
  | zero => omega
  | succ n ih =>
    rcases Nat.lt_or_ge m (n + 1) with h | h
    · have hmn' : m ≤ n := by omega
      have hlen : i < (computeWorldPoseN pose n).length := by
        rw [computeWorldPoseN_length]; omega
      have hstep : (computeWorldPoseN pose (n + 1)).getD i 0
          = (computeWorldPoseN pose n).getD i 0 := by
        simp only [computeWorldPoseN]
        split <;> rw [List.getD_append _ _ _ _ hlen]
      rw [hstep, ih hmn']
    · have : m = n + 1 := by omega
      rw [this]

/-- The entry written at iteration `i`. -/
theorem computeWorldPoseN_getD_last (pose : OvrAvatarSkinnedMeshPose) (i : Nat) :
    (computeWorldPoseN pose (i + 1)).getD i 0 =
      if jointParent pose i < 0 then jointLocalMat pose i
      else (computeWorldPoseN pose i).getD (jointParent pose i).toNat 0
        * jointLocalMat pose i := by
  have hlen : (computeWorldPoseN pose i).length = i := computeWorldPoseN_length pose i
  simp only [computeWorldPoseN]
  split <;>
    simp [List.getD, List.getElem?_append_right, hlen]

/-- Claim C1: for every joint array whose parent indices are strictly
smaller than the child index (negative parent meaning root), the single
pass of `_computeWorldPose` produces one world matrix per joint
(index order 0..N-1, exactly once), with `world[i] = local[i]` for a
root and `world[i] = world[parent[i]] * local[i]` otherwise. -/
theorem computeWorldPose_parent_before_child_spec
    (pose : OvrAvatarSkinnedMeshPose)
    (h : ∀ i, i < pose.jointTransform.length → jointParent pose i < (i : Int)) :
    (computeWorldPose pose).length = pose.jointTransform.length ∧
    ∀ i, i < pose.jointTransform.length →
      (computeWorldPose pose).getD i 0 =
        if jointParent pose i < 0 then jointLocalMat pose i
        else (computeWorldPose pose).getD (jointParent pose i).toNat 0
          * jointLocalMat pose i := by
  refine ⟨computeWorldPose_length pose, ?_⟩
  intro i hi
  have hstep : (computeWorldPose pose).getD i 0
      = (computeWorldPoseN pose (i + 1)).getD i 0 :=
    computeWorldPoseN_getD_mono pose (by omega) (by omega)
  rw [hstep, computeWorldPoseN_getD_last]
  by_cases hroot : jointParent pose i < 0
  · simp [hroot]
  · have hpar : (jointParent pose i).toNat < i := by
      have := h i hi
      omega
    have hmono : (computeWorldPose pose).getD (jointParent pose i).toNat 0
        = (computeWorldPoseN pose i).getD (jointParent pose i).toNat 0 :=
      computeWorldPoseN_getD_mono pose (by omega) hpar
    rw [if_neg hroot, if_neg hroot, hmono]

/-- A unit-translation transform along y, used by concrete scenarios. -/
def exampleJointTransform : OvrAvatarTransform :=
  ⟨⟨0, 1, 0⟩, ⟨0, 0, 0, 1⟩, ⟨1, 1, 1⟩⟩

/-- The three-joint chain scenario: parents `[-1, 0, 1]`, each local
transform a translation by (0,1,0). -/
def examplePose : OvrAvatarSkinnedMeshPose :=
  { jointTransform := [exampleJointTransform, exampleJointTransform, exampleJointTransform]
    jointParents := [-1, 0, 1] }

theorem computeWorldPose_parent_before_child_spec_witness :
    jointParent examplePose 0 < (0 : Int) ∧
    jointParent examplePose 1 < (1 : Int) ∧
    jointParent examplePose 2 < (2 : Int) ∧
    (computeWorldPose examplePose).length = 3 ∧
    (computeWorldPose examplePose).getD 0 0 = jointLocalMat examplePose 0 ∧
    (computeWorldPose examplePose).getD 2 0 =
      (computeWorldPose examplePose).getD 1 0 * jointLocalMat examplePose 2 := by
  have h := computeWorldPose_parent_before_child_spec examplePose (by decide)
  have h0 := h.2 0 (by decide)
  have h2 := h.2 2 (by decide)
  refine ⟨by decide, by decide, by decide, h.1, ?_, ?_⟩
  · simpa [examplePose, jointParent] using h0
  · have : jointParent examplePose 2 = 1 := by decide
    rw [this] at h2
    simpa using h2

/-- `ovrAvatarMeshAssetData` (the part the skinning claims use): the
skinned bind pose skeleton of the mesh. -/
structure OvrAvatarMeshAssetData where
  skinnedBindPose : OvrAvatarSkinnedMeshPose

/-- `MeshData`: the cached wrapper `_loadMesh` produces; buffer handles
are irrelevant to the claims, the bind pose matrices are kept. -/
structure MeshData where
  bindPose : List Mat4
  inverseBindPose : List Mat4

/-- `glm::inverse` in exact arithmetic: adjugate divided by the
determinant (glm computes exactly this cofactor expansion). -/
def glmInverse (A : Mat4) : Mat4 := (A.det)⁻¹ • A.adjugate

/-- `_loadMesh` (skinning-relevant part): computes the bind pose via
`_computeWorldPose` and caches each joint's inverted bind matrix. -/
def loadMesh (data : OvrAvatarMeshAssetData) : MeshData :=
  let bindPose := computeWorldPose data.skinnedBindPose
  { bindPose := bindPose
    inverseBindPose := bindPose.map glmInverse }

/-- `_setMeshState` (skin-matrix part): the world pose of the current
skinned pose, each joint multiplied by the cached inverse bind pose. -/
def setMeshStateSkinnedPoses (data : MeshData)
    (skinnedPose : OvrAvatarSkinnedMeshPose) : List Mat4 :=
  let skinned := computeWorldPose skinnedPose
  (List.range skinnedPose.jointTransform.length).map
    fun i => skinned.getD i 1 * data.inverseBindPose.getD i 1

theorem mul_glmInverse {A : Mat4} (h : IsUnit A.det) : A * glmInverse A = 1 := by
  have hne : A.det ≠ 0 := h.ne_zero
  unfold glmInverse
  rw [Matrix.mul_smul, Matrix.mul_adjugate, smul_smul, inv_mul_cancel₀ hne, one_smul]

theorem getD_map_range (n : Nat) (f : Nat → Mat4) (i : Nat) (h : i < n) (d : Mat4) :
    ((List.range n).map f).getD i d = f i := by
  rw [List.getD_eq_getElem?_getD, List.getElem?_map, List.getElem?_range h]
  rfl

theorem getD_map_lt (l : List Mat4) (f : Mat4 → Mat4) (i : Nat) (h : i < l.length)
    (d d' : Mat4) : (l.map f).getD i d = f (l.getD i d') := by
  rw [List.getD_eq_getElem?_getD, List.getElem?_map, List.getElem?_eq_getElem h,
    List.getD_eq_getElem?_getD, List.getElem?_eq_getElem h]
  rfl

/-- Claim C2: for a mesh drawn in its bind pose (current skinned pose
equal to the bind pose cached at mesh load), the per-joint skin matrix
`currentWorld[i] * inverseBindPose[i]` computed by `_setMeshState` is
the identity for every joint whose bind matrix is invertible. -/
theorem setMeshState_bind_pose_skin_identity
    (data : OvrAvatarMeshAssetData) (skinnedPose : OvrAvatarSkinnedMeshPose)
    (hpose : skinnedPose = data.skinnedBindPose)
    (i : Nat) (hi : i < skinnedPose.jointTransform.length)
    (hinv : IsUnit ((computeWorldPose data.skinnedBindPose).getD i 1).det) :
    (setMeshStateSkinnedPoses (loadMesh data) skinnedPose).getD i 1 = 1 := by
  subst hpose
  have hlen : i < (computeWorldPose data.skinnedBindPose).length := by
    rw [computeWorldPose_length]
    exact hi
  simp only [setMeshStateSkinnedPoses, loadMesh]
  rw [getD_map_range _ _ i hi, getD_map_lt _ glmInverse i hlen 1 1]
  exact mul_glmInverse hinv

/-- A one-joint mesh asset whose bind skeleton is a single root joint
translated by (0,1,0). -/
def exampleMeshAsset : OvrAvatarMeshAssetData :=
  { skinnedBindPose :=
      { jointTransform := [exampleJointTransform], jointParents := [-1] } }

theorem setMeshState_bind_pose_skin_identity_witness :
    (setMeshStateSkinnedPoses (loadMesh exampleMeshAsset)
      exampleMeshAsset.skinnedBindPose).getD 0 1 = 1 := by
  have hM : (computeWorldPose exampleMeshAsset.skinnedBindPose).getD 0 1
      = glmFromOvrAvatarTransform exampleJointTransform := by
    simp [computeWorldPose, computeWorldPoseN, jointParent, jointLocalMat,
      exampleMeshAsset]
  have hprod : glmFromOvrAvatarTransform exampleJointTransform
      = glmTranslate ⟨0, 1, 0⟩ := by
    ext i j
    fin_cases i <;> fin_cases j <;>
      simp [glmFromOvrAvatarTransform, exampleJointTransform, glmTranslate,
        glmMat4Cast, glmScale, Matrix.mul_apply, Fin.sum_univ_four,
        Matrix.vecHead, Matrix.vecTail]
  have hdet : (glmTranslate ⟨0, 1, 0⟩).det = 1 := by
    simp [glmTranslate, Matrix.det_succ_row_zero, Fin.sum_univ_succ]
  have hinv : IsUnit ((computeWorldPose exampleMeshAsset.skinnedBindPose).getD 0 1).det := by
    rw [hM, hprod, hdet]
    exact isUnit_one
  exact setMeshState_bind_pose_skin_identity exampleMeshAsset
    exampleMeshAsset.skinnedBindPose rfl 0 (by simp [exampleMeshAsset]) hinv

/-- The observable outcome of the packet branch of `_updateAvatar`:
the final playback cursor, whether the pose was reset to time 0
(`ovrAvatarPose_Finalize(avatar, 0.0f)` ran), and the time at which
the pose is sampled from the packet. -/
structure PlaybackUpdate where
  cursor : ℚ
  poseResetToZero : Bool
  sampleTime : ℚ
deriving DecidableEq, Repr

/-- The packet-playback branch of `_updateAvatar`: advance the cursor
by the elapsed seconds; if it exceeds the packet duration, reset the
pose to time 0 and the cursor to 0; then sample the packet at the
resulting cursor. -/
def updateAvatarPacket (packetDuration deltaSeconds cursor : ℚ) : PlaybackUpdate :=
  let t := cursor + deltaSeconds
  if t > packetDuration then
    { cursor := 0, poseResetToZero := true, sampleTime := 0 }
  else
    { cursor := t, poseResetToZero := false, sampleTime := t }

/-- Claim C3: in packet playback the cursor is advanced by the elapsed
delta; on overshoot the pose is reset and the cursor becomes exactly 0
(the remainder is discarded), and the packet is sampled at the
resulting cursor.  In the duration-2 scenario with deltas 1.5 then 1.0
the second update resets and rewraps the cursor to 0, not to 0.5. -/
theorem updateAvatarPacket_loop_spec (packetDuration deltaSeconds cursor : ℚ) :
    ((updateAvatarPacket packetDuration deltaSeconds cursor).cursor =
      if cursor + deltaSeconds > packetDuration then 0
      else cursor + deltaSeconds) ∧
    ((updateAvatarPacket packetDuration deltaSeconds cursor).poseResetToZero =
      true ↔ cursor + deltaSeconds > packetDuration) ∧
    ((updateAvatarPacket packetDuration deltaSeconds cursor).sampleTime =
      (updateAvatarPacket packetDuration deltaSeconds cursor).cursor) ∧
    (updateAvatarPacket 2 (3 / 2) 0).cursor = 3 / 2 ∧
    (updateAvatarPacket 2 1 (3 / 2)).poseResetToZero = true ∧
    (updateAvatarPacket 2 1 (3 / 2)).cursor = 0 := by
  simp only [updateAvatarPacket]
  refine ⟨?_, ?_, ?_, ?_, ?_, ?_⟩
  · split_ifs <;> rfl
  · split_ifs with h <;> simp [h]
  · split_ifs <;> rfl
  · norm_num
  · norm_num
  · norm_num

/-- `TextureData`: the GL texture wrapper stored in the asset map. -/
structure TextureData where
  textureID : Nat
deriving DecidableEq, Repr

/-- The asset cache `_assetMap` (`std::map<ovrAvatarAssetID, void*>`):
an association of asset ids to stored pointers, in key-set order of
insertion; a stored `none` models a stored null pointer (as
`_handleAssetLoaded` stores for unrecognised asset types). -/
abbrev AssetMap := List (Nat × Option TextureData)

/-- The key set of the asset cache. -/
def assetMapKeys (m : AssetMap) : List Nat := m.map Prod.fst

/-- Pure lookup (`std::map::find`): `none` when the id is absent. -/
def assetMapFind : AssetMap → Nat → Option (Option TextureData)
  | [], _ => none
  | kv :: rest, id => if kv.1 = id then some kv.2 else assetMapFind rest id

/-- `std::map::operator[]`, as used on `_assetMap` at render time:
returns the stored pointer for the key, default-inserting a
value-initialised entry (a null pointer) when the key is absent.
Returns the read value together with the possibly grown map. -/
def assetMapIndex (m : AssetMap) (id : Nat) : Option TextureData × AssetMap :=
  match assetMapFind m id with
  | some v => (v, m)
  | none => (none, m ++ [(id, none)])

/-- `_setTextureSampler`: binds the texture for a single asset id at a
requested unit.  For a nonzero id the stored pointer is cast to
`TextureData*` and dereferenced without a null check; dereferencing a
null pointer has no defined result, modelled as `none`. -/
def setTextureSampler (assetID : Nat) (m : AssetMap) : Option (Nat × AssetMap) :=
  if assetID ≠ 0 then
    match assetMapIndex m assetID with
    | (none, _) => none
    | (some textureData, m1) => some (textureData.textureID, m1)
  else
    some (0, m)

/-- `_setTextureSamplers` (the layer-table binder): binds a table of
asset ids in order; a zero id, or a stored null pointer, binds texture
0 at that unit (it checks the pointer before dereferencing). -/
def setTextureSamplers (assetIDs : List Nat) (m : AssetMap) : List Nat × AssetMap :=
  match assetIDs with
  | [] => ([], m)
  | id :: rest =>
    let step :=
      if id ≠ 0 then
        match assetMapIndex m id with
        | (some textureData, m1) => (textureData.textureID, m1)
        | (none, m1) => (0, m1)
      else (0, m)
    let tail := setTextureSamplers rest step.2
    (step.1 :: tail.1, tail.2)

/-- Claim C4 is refuted by the code: at the failing input — the nonzero
asset id 42 absent from an empty cache — the single-texture binder
`_setTextureSampler` dereferences the null pointer that
`std::map::operator[]` default-inserts (no defined result, `none`),
while the layer-table binder `_setTextureSamplers` is total there and
binds texture 0, as does the zero id. -/
theorem setTextureSampler_absent_asset_null_deref :
    setTextureSampler 42 [] = none ∧
    (setTextureSamplers [42] []).1 = [0] ∧
    (setTextureSamplers [0, 42] []).1 = [0, 0] ∧
    setTextureSampler 0 [] = some (0, []) :=
  ⟨rfl, rfl, rfl, rfl⟩

theorem assetMapFind_append_self (m : AssetMap) (id : Nat) (v : Option TextureData)
    (h : assetMapFind m id = none) :
    assetMapFind (m ++ [(id, v)]) id = some v := by
  induction m with
  | nil => simp [assetMapFind]
  | cons kv rest ih =>
    simp only [List.cons_append, assetMapFind] at h ⊢
    by_cases hk : kv.1 = id
    · rw [if_pos hk] at h
      exact absurd h (by simp)
    · rw [if_neg hk] at h ⊢
      exact ih h

/-- Claim C10: asset-cache reads at render time are not side-effect
free: an `operator[]` lookup of an absent id reads a null resource and
inserts the pair (id, null), so afterwards the cache reports the id
present with a null resource and its key set has grown by that id. -/
theorem assetMapIndex_absent_id_inserts_null (m : AssetMap) (id : Nat)
    (h : assetMapFind m id = none) :
    (assetMapIndex m id).1 = none ∧
    assetMapFind (assetMapIndex m id).2 id = some none ∧
    assetMapKeys (assetMapIndex m id).2 = assetMapKeys m ++ [id] := by
  unfold assetMapIndex
  rw [h]
  exact ⟨rfl, assetMapFind_append_self m id none h, by simp [assetMapKeys]⟩

theorem assetMapIndex_absent_id_inserts_null_witness :
    assetMapFind [(7, some ⟨3⟩)] 42 = none ∧
    (assetMapIndex [(7, some ⟨3⟩)] 42).1 = none ∧
    assetMapFind (assetMapIndex [(7, some ⟨3⟩)] 42).2 42 = some none ∧
    assetMapKeys (assetMapIndex [(7, some ⟨3⟩)] 42).2 = [7, 42] := by
  have h := assetMapIndex_absent_id_inserts_null [(7, some ⟨3⟩)] 42 rfl
  exact ⟨rfl, h.1, h.2.1, by simpa using h.2.2⟩

/-- `ovrAvatarRenderPartType`: the closed tag of a render part. -/
inductive OvrAvatarRenderPartType where
  | skinnedMeshRender
  | skinnedMeshRenderPBS
  | projectorRender
deriving DecidableEq, Repr

/-- `ovrAvatarRenderPart`: the closed variant over the three render
part kinds (payload reduced to what the traversal claims use). -/
inductive OvrAvatarRenderPart where
  | skinnedMeshRender (meshAssetID : Nat)
  | skinnedMeshRenderPBS (meshAssetID : Nat)
  | projectorRender (componentIndex renderPartIndex : Nat)
deriving DecidableEq, Repr

instance : Inhabited OvrAvatarRenderPart :=
  ⟨OvrAvatarRenderPart.skinnedMeshRender 0⟩

/-- `ovrAvatarRenderPart_GetType`. -/
def renderPartType : OvrAvatarRenderPart → OvrAvatarRenderPartType
  | OvrAvatarRenderPart.skinnedMeshRender _ =>
    OvrAvatarRenderPartType.skinnedMeshRender
  | OvrAvatarRenderPart.skinnedMeshRenderPBS _ =>
    OvrAvatarRenderPartType.skinnedMeshRenderPBS
  | OvrAvatarRenderPart.projectorRender _ _ =>
    OvrAvatarRenderPartType.projectorRender

/-- `ovrAvatarComponent`: a transform plus an ordered render part list. -/
structure OvrAvatarComponent where
  transform : OvrAvatarTransform
  renderParts : List OvrAvatarRenderPart
deriving DecidableEq

instance : Inhabited OvrAvatarComponent := ⟨⟨default, []⟩⟩

/-- `ovrAvatar`: the component sequence of the avatar. -/
structure OvrAvatar where
  components : List OvrAvatarComponent
deriving DecidableEq

/-- One dispatch the traversal issues: which component and render part,
the component world transform computed for it, and the draw routine
selected by the part's variant tag. -/
structure RenderDispatch where
  componentIndex : Nat
  renderPartIndex : Nat
  world : Mat4
  routine : OvrAvatarRenderPartType

/-- `_renderAvatar` of `Minimal/Avatar.cpp`: iterate components
0..componentCount-1, compute each component's world transform, and
dispatch every render part by its variant tag. -/
def renderAvatar (avatar : OvrAvatar) : List RenderDispatch :=
  (List.range avatar.components.length).flatMap fun i =>
    let component := avatar.components.getD i default
    let world := glmFromOvrAvatarTransform component.transform
    (List.range component.renderParts.length).map fun j =>
      { componentIndex := i, renderPartIndex := j, world := world
        routine := renderPartType (component.renderParts.getD j default) }

/-- `_renderAvatar` as modified in the unnamed second copy of the
source: the component loop is `for (i = 4; i < 6; ++i)`, so only
components 4 and 5 are traversed. -/
def renderAvatarHandsOnly (avatar : OvrAvatar) : List RenderDispatch :=
  ([4, 5] : List Nat).flatMap fun i =>
    let component := avatar.components.getD i default
    let world := glmFromOvrAvatarTransform component.transform
    (List.range component.renderParts.length).map fun j =>
      { componentIndex := i, renderPartIndex := j, world := world
        routine := renderPartType (component.renderParts.getD j default) }

/-- An avatar with seven components, each carrying one render part. -/
def exampleAvatar7 : OvrAvatar :=
  { components :=
      [⟨default, [OvrAvatarRenderPart.skinnedMeshRender 1]⟩,
       ⟨default, [OvrAvatarRenderPart.skinnedMeshRenderPBS 2]⟩,
       ⟨default, [OvrAvatarRenderPart.projectorRender 0 0]⟩,
       ⟨default, [OvrAvatarRenderPart.skinnedMeshRender 3]⟩,
       ⟨default, [OvrAvatarRenderPart.skinnedMeshRender 4]⟩,
       ⟨default, [OvrAvatarRenderPart.skinnedMeshRender 5]⟩,
       ⟨default, [OvrAvatarRenderPart.skinnedMeshRender 6]⟩] }

/-- Claim C5 as stated is false on the second copy of the source: on a
seven-component avatar whose every component carries a render part, the
modified traversal dispatches only for components 4 and 5; component 0
(which has a render part) is never visited. -/
theorem renderAvatarHandsOnly_skips_components :
    exampleAvatar7.components.length = 7 ∧
    (exampleAvatar7.components.getD 0 default).renderParts.length = 1 ∧
    (renderAvatarHandsOnly exampleAvatar7).map RenderDispatch.componentIndex
      = [4, 5] ∧
    0 ∉ (renderAvatarHandsOnly exampleAvatar7).map RenderDispatch.componentIndex := by
  refine ⟨rfl, rfl, rfl, ?_⟩
  decide

/-- Claim C5 (amended): the traversal of `Minimal/Avatar.cpp` visits
every component 0..componentCount-1, computes its world transform and
dispatches every one of its render parts to the routine of its variant
tag, skipping none; the traversal of the unnamed second copy instead
dispatches only for components 4 and 5. -/
theorem renderAvatar_visits_all_components (avatar : OvrAvatar) :
    ((renderAvatar avatar).length =
      ((List.range avatar.components.length).map
        (fun i => (avatar.components.getD i default).renderParts.length)).sum) ∧
    (∀ i j, i < avatar.components.length →
      j < (avatar.components.getD i default).renderParts.length →
      ({ componentIndex := i, renderPartIndex := j
         world := glmFromOvrAvatarTransform
           (avatar.components.getD i default).transform
         routine := renderPartType
           ((avatar.components.getD i default).renderParts.getD j default)
       } : RenderDispatch) ∈ renderAvatar avatar) ∧
    (∀ e ∈ renderAvatarHandsOnly avatar,
      e.componentIndex = 4 ∨ e.componentIndex = 5) := by
  refine ⟨?_, ?_, ?_⟩
  · simp [renderAvatar, List.length_flatMap, Function.comp_def]
  · intro i j hi hj
    simp only [renderAvatar]
    refine List.mem_flatMap.mpr ⟨i, List.mem_range.mpr hi, ?_⟩
    exact List.mem_map.mpr ⟨j, List.mem_range.mpr hj, rfl⟩
  · intro e he
    simp only [renderAvatarHandsOnly] at he
    rcases List.mem_flatMap.mp he with ⟨i, hi, hmem⟩
    rcases List.mem_map.mp hmem with ⟨j, _, rfl⟩
    simpa using hi

theorem renderAvatar_visits_all_components_witness :
    (renderAvatar exampleAvatar7).length = 7 ∧
    ({ componentIndex := 0, renderPartIndex := 0
       world := glmFromOvrAvatarTransform
         (exampleAvatar7.components.getD 0 default).transform
       routine := renderPartType
         ((exampleAvatar7.components.getD 0 default).renderParts.getD 0 default)
     } : RenderDispatch) ∈ renderAvatar exampleAvatar7 := by
  have h := renderAvatar_visits_all_components exampleAvatar7
  refine ⟨?_, h.2.1 0 0 (by decide) (by decide)⟩
  rw [h.1]
  decide

/-- `ovrAvatarMaterialLayerState`: one layer descriptor of a material. -/
structure OvrAvatarMaterialLayerState where
  sampleMode : Int
  blendMode : Int
  maskType : Int
  layerColor : OvrAvatarVector4f
  sampleTexture : Nat
  sampleScaleOffset : OvrAvatarVector4f
  sampleParameters : OvrAvatarVector4f
  maskParameters : OvrAvatarVector4f
  maskAxis : OvrAvatarVector4f
deriving DecidableEq, Repr

instance : Inhabited OvrAvatarMaterialLayerState :=
  ⟨⟨0, 0, 0, ⟨0, 0, 0, 0⟩, 0, ⟨0, 0, 0, 0⟩, ⟨0, 0, 0, 0⟩, ⟨0, 0, 0, 0⟩,
    ⟨0, 0, 0, 0⟩⟩⟩

/-- `ovrAvatarMaterialState` (the part `_setMaterialState` reads): the
base/maps state plus the ordered layer list (`layerCount` is the list
length). -/
structure OvrAvatarMaterialState where
  baseColor : OvrAvatarVector4f
  baseMaskType : Int
  baseMaskParameters : OvrAvatarVector4f
  baseMaskAxis : OvrAvatarVector4f
  alphaMaskTextureID : Nat
  alphaMaskScaleOffset : OvrAvatarVector4f
  normalMapTextureID : Nat
  normalMapScaleOffset : OvrAvatarVector4f
  parallaxMapTextureID : Nat
  parallaxMapScaleOffset : OvrAvatarVector4f
  roughnessMapTextureID : Nat
  roughnessMapScaleOffset : OvrAvatarVector4f
  layers : List OvrAvatarMaterialLayerState
deriving DecidableEq, Repr

/-- One slot of the `LayerUniforms` table of `_setMaterialState`
(the i-th component of each of its parallel arrays). -/
structure LayerUniformSlot where
  samplerMode : Int
  blendMode : Int
  maskType : Int
  color : OvrAvatarVector4f
  surface : Nat
  surfaceID : Nat
  surfaceScaleOffset : OvrAvatarVector4f
  sampleParameters : OvrAvatarVector4f
  maskParameters : OvrAvatarVector4f
  maskAxis : OvrAvatarVector4f
deriving DecidableEq, Repr

/-- The all-zero slot `memset` leaves behind. -/
def zeroLayerSlot : LayerUniformSlot :=
  ⟨0, 0, 0, ⟨0, 0, 0, 0⟩, 0, 0, ⟨0, 0, 0, 0⟩, ⟨0, 0, 0, 0⟩, ⟨0, 0, 0, 0⟩,
    ⟨0, 0, 0, 0⟩⟩

/-- The loop body of `_setMaterialState`: slot `i` receives the
caller-supplied values of layer `i` and the current texture unit
counter (`layerSurfaces[i] = textureSlot++`). -/
def populateLayerSlot (layerState : OvrAvatarMaterialLayerState)
    (textureSlot : Nat) : LayerUniformSlot :=
  { samplerMode := layerState.sampleMode
    blendMode := layerState.blendMode
    maskType := layerState.maskType
    color := layerState.layerColor
    surface := textureSlot
    surfaceID := layerState.sampleTexture
    surfaceScaleOffset := layerState.sampleScaleOffset
    sampleParameters := layerState.sampleParameters
    maskParameters := layerState.maskParameters
    maskAxis := layerState.maskAxis }

/-- The layer loop of `_setMaterialState`: fold over indices `0..n-1`,
writing slot `i` and incrementing the texture unit counter. -/
def fillLayerTable (f : Nat → Nat → LayerUniformSlot) (n : Nat)
    (tbl : List LayerUniformSlot) (s : Nat) : List LayerUniformSlot × Nat :=
  (List.range n).foldl (fun acc i => (acc.1.set i (f i acc.2), acc.2 + 1)) (tbl, s)

/-- The uniform state `_setMaterialState` uploads that the layer-table
claims are about: the four fixed map units and the layer table. -/
structure MaterialUniforms where
  alphaMaskUnit : Nat
  normalMapUnit : Nat
  parallaxMapUnit : Nat
  roughnessMapUnit : Nat
  layerCount : Nat
  layerTable : List LayerUniformSlot
deriving DecidableEq, Repr

/-- `_setMaterialState` with maximum layer count `M`
(`OVR_AVATAR_MAX_MATERIAL_LAYER_COUNT`, a constant of the external SDK
header, kept as a parameter): `textureSlot` starts at 1 and is taken by
the four fixed maps, the layer table is zero-initialised (`memset`) and
its first `layerCount` slots populated, each layer consuming the next
texture unit. -/
def setMaterialState (M : Nat) (state : OvrAvatarMaterialState) : MaterialUniforms :=
  let textureSlot0 := 1
  let alphaMaskUnit := textureSlot0
  let textureSlot1 := textureSlot0 + 1
  let normalMapUnit := textureSlot1
  let textureSlot2 := textureSlot1 + 1
  let parallaxMapUnit := textureSlot2
  let textureSlot3 := textureSlot2 + 1
  let roughnessMapUnit := textureSlot3
  let textureSlot4 := textureSlot3 + 1
  let zeroed := List.replicate M zeroLayerSlot
  let filled := fillLayerTable
    (fun i slot => populateLayerSlot (state.layers.getD i default) slot)
    state.layers.length zeroed textureSlot4
  { alphaMaskUnit := alphaMaskUnit
    normalMapUnit := normalMapUnit
    parallaxMapUnit := parallaxMapUnit
    roughnessMapUnit := roughnessMapUnit
    layerCount := state.layers.length
    layerTable := filled.1 }

theorem fillLayerTable_succ (f : Nat → Nat → LayerUniformSlot) (n : Nat)
    (tbl : List LayerUniformSlot) (s : Nat) :
    fillLayerTable f (n + 1) tbl s =
      ((fillLayerTable f n tbl s).1.set n (f n (fillLayerTable f n tbl s).2),
       (fillLayerTable f n tbl s).2 + 1) := by
  unfold fillLayerTable
  rw [List.range_succ, List.foldl_append]
  rfl

theorem fillLayerTable_snd (f : Nat → Nat → LayerUniformSlot) (n : Nat)
    (tbl : List LayerUniformSlot) (s : Nat) :
    (fillLayerTable f n tbl s).2 = s + n := by
  induction n with
  | zero => rfl
  | succ n ih =>
    rw [fillLayerTable_succ, ih]
    rfl

theorem fillLayerTable_length (f : Nat → Nat → LayerUniformSlot) (n : Nat)
    (tbl : List LayerUniformSlot) (s : Nat) :
    (fillLayerTable f n tbl s).1.length = tbl.length := by
  induction n with
  | zero => rfl
  | succ n ih => rw [fillLayerTable_succ]; simp [ih]

theorem fillLayerTable_getElem (f : Nat → Nat → LayerUniformSlot) (n : Nat)
    (tbl : List LayerUniformSlot) (s : Nat) (j : Nat) :
    (fillLayerTable f n tbl s).1[j]? =
      if j < n then (if j < tbl.length then some (f j (s + j)) else none)
      else tbl[j]? := by
  induction n with
  | zero => simp [fillLayerTable]
  | succ n ih =>
    rw [fillLayerTable_succ, fillLayerTable_snd, List.getElem?_set,
      fillLayerTable_length]
    by_cases hj : n = j
    · subst hj
      simp
    · rw [if_neg hj, ih]
      by_cases hjn : j < n
      · have h1 : j < n + 1 := by omega
        rw [if_pos hjn, if_pos h1]
      · have h1 : ¬j < n + 1 := by omega
        rw [if_neg hjn, if_neg h1]

/-- Claim C6: for a material with `k ≤ M` layers, the uploaded layer
uniform table has length `M`, its first `k` slots carry exactly the
caller-supplied layer values with layer `i` on texture unit `5 + i`
(after the base slot and the four fixed maps on units 1..4), and the
remaining `M - k` slots are all-zero from the `memset`. -/
theorem setMaterialState_layer_table_spec (M : Nat)
    (state : OvrAvatarMaterialState) (hk : state.layers.length ≤ M) :
    (setMaterialState M state).layerTable.length = M ∧
    (∀ i, i < state.layers.length →
      (setMaterialState M state).layerTable[i]? =
        some (populateLayerSlot (state.layers.getD i default) (5 + i))) ∧
    (∀ i, state.layers.length ≤ i → i < M →
      (setMaterialState M state).layerTable[i]? = some zeroLayerSlot) ∧
    (setMaterialState M state).alphaMaskUnit = 1 ∧
    (setMaterialState M state).normalMapUnit = 2 ∧
    (setMaterialState M state).parallaxMapUnit = 3 ∧
    (setMaterialState M state).roughnessMapUnit = 4 := by
  refine ⟨?_, ?_, ?_, rfl, rfl, rfl, rfl⟩
  · simp [setMaterialState, fillLayerTable_length]
  · intro i hi
    simp only [setMaterialState]
    rw [fillLayerTable_getElem, if_pos hi, List.length_replicate,
      if_pos (by omega)]
  · intro i hki hiM
    simp only [setMaterialState]
    rw [fillLayerTable_getElem, if_neg (by omega), List.getElem?_replicate,
      if_pos hiM]

/-- A material with two layers (and distinct field values so a filled
slot is visibly non-zero). -/
def exampleMaterialState : OvrAvatarMaterialState :=
  { baseColor := ⟨1, 0, 0, 1⟩
    baseMaskType := 0
    baseMaskParameters := ⟨0, 0, 0, 0⟩
    baseMaskAxis := ⟨0, 1, 0, 0⟩
    alphaMaskTextureID := 11
    alphaMaskScaleOffset := ⟨1, 1, 0, 0⟩
    normalMapTextureID := 0
    normalMapScaleOffset := ⟨1, 1, 0, 0⟩
    parallaxMapTextureID := 0
    parallaxMapScaleOffset := ⟨1, 1, 0, 0⟩
    roughnessMapTextureID := 12
    roughnessMapScaleOffset := ⟨1, 1, 0, 0⟩
    layers :=
      [⟨1, 2, 0, ⟨1, 1, 1, 1⟩, 21, ⟨1, 1, 0, 0⟩, ⟨0, 0, 0, 0⟩, ⟨0, 0, 0, 0⟩,
        ⟨0, 0, 1, 0⟩⟩,
       ⟨0, 1, 1, ⟨1, 0, 1, 1⟩, 22, ⟨2, 2, 0, 0⟩, ⟨0, 0, 0, 0⟩, ⟨1, 0, 0, 0⟩,
        ⟨0, 0, 1, 0⟩⟩] }

theorem setMaterialState_layer_table_spec_witness :
    exampleMaterialState.layers.length ≤ 8 ∧
    (setMaterialState 8 exampleMaterialState).layerTable.length = 8 ∧
    (setMaterialState 8 exampleMaterialState).layerTable[1]? =
      some (populateLayerSlot (exampleMaterialState.layers.getD 1 default) 6) ∧
    (setMaterialState 8 exampleMaterialState).layerTable[5]? = some zeroLayerSlot ∧
    (setMaterialState 8 exampleMaterialState).roughnessMapUnit = 4 := by
  have h := setMaterialState_layer_table_spec 8 exampleMaterialState (by decide)
  have h1 := h.2.1 1 (by decide)
  refine ⟨by decide, h.1, ?_, h.2.2.1 5 (by decide) (by decide), h.2.2.2.2.2.2⟩
  simpa using h1

/-- The two block-compressed texture families `_loadTexture` handles. -/
inductive CompressedTextureFormat where
  | dxt1
  | dxt5
deriving DecidableEq, Repr

/-- Per-block byte size chosen by `_loadTexture`: 8 bytes for the DXT1
family, 16 bytes for the DXT5 family. -/
def blockSize : CompressedTextureFormat → Nat
  | CompressedTextureFormat.dxt1 => 8
  | CompressedTextureFormat.dxt5 => 16

/-- The per-level byte length of the compressed branch of
`_loadTexture`: one full block when either dimension is below 4, else
`blockSize * (width / 4) * (height / 4)` with integer division. -/
def mipLevelSize (bs width height : Nat) : Nat :=
  if width < 4 ∨ height < 4 then bs else bs * (width / 4) * (height / 4)

/-- One `glCompressedTexImage2D` upload issued by the mip loop. -/
structure MipLevelUpload where
  level : Nat
  offset : Nat
  width : Nat
  height : Nat
  byteLength : Nat
deriving DecidableEq, Repr

/-- The mip loop of the compressed branch of `_loadTexture`: each
iteration uploads `levelSize` bytes read at the accumulated offset,
then advances the offset and halves width and height. -/
def compressedMipLevels (bs : Nat) (level offset width height : Nat) :
    Nat → List MipLevelUpload
  | 0 => []
  | n + 1 =>
    let levelSize := mipLevelSize bs width height
    { level := level, offset := offset, width := width, height := height
      byteLength := levelSize }
      :: compressedMipLevels bs (level + 1) (offset + levelSize)
          (width / 2) (height / 2) n

/-- `_loadTexture` on a block-compressed asset: `mipCount` uploads
starting at level 0, offset 0, full size. -/
def loadTextureCompressed (format : CompressedTextureFormat)
    (sizeX sizeY mipCount : Nat) : List MipLevelUpload :=
  compressedMipLevels (blockSize format) 0 0 sizeX sizeY mipCount

theorem mipSum_shift (bs w h k : Nat) :
    mipLevelSize bs w h +
      ((List.range k).map
        (fun j => mipLevelSize bs (w / 2 / 2 ^ j) (h / 2 / 2 ^ j))).sum
    = ((List.range (k + 1)).map
        (fun j => mipLevelSize bs (w / 2 ^ j) (h / 2 ^ j))).sum := by
  rw [List.range_succ_eq_map, List.map_cons, List.sum_cons, List.map_map]
  congr 1
  · rw [pow_zero, Nat.div_one, Nat.div_one]
  · congr 1
    apply List.map_congr_left
    intro j _
    simp only [Function.comp_apply, Nat.succ_eq_add_one]
    rw [Nat.div_div_eq_div_mul, Nat.div_div_eq_div_mul, pow_succ']

theorem compressedMipLevels_getElem (bs : Nat) :
    ∀ (n level offset w h k : Nat), k < n →
      (compressedMipLevels bs level offset w h n)[k]? =
        some { level := level + k
               offset := offset + ((List.range k).map
                 (fun j => mipLevelSize bs (w / 2 ^ j) (h / 2 ^ j))).sum
               width := w / 2 ^ k
               height := h / 2 ^ k
               byteLength := mipLevelSize bs (w / 2 ^ k) (h / 2 ^ k) } := by
  intro n
  induction n with
  | zero =>
    intro level offset w h k hk
    omega
  | succ n ih =>
    intro level offset w h k hk
    match k with
    | 0 => simp [compressedMipLevels]
    | k + 1 =>
      have hk' : k < n := by omega
      have hrec := ih (level + 1) (offset + mipLevelSize bs w h)
        (w / 2) (h / 2) k hk'
      simp only [compressedMipLevels]
      rw [List.getElem?_cons_succ, hrec]
      have ew : w / 2 / 2 ^ k = w / 2 ^ (k + 1) := by
        rw [Nat.div_div_eq_div_mul, pow_succ']
      have eh : h / 2 / 2 ^ k = h / 2 ^ (k + 1) := by
        rw [Nat.div_div_eq_div_mul, pow_succ']
      have eo : offset + mipLevelSize bs w h +
          ((List.range k).map
            (fun j => mipLevelSize bs (w / 2 / 2 ^ j) (h / 2 / 2 ^ j))).sum
          = offset + ((List.range (k + 1)).map
            (fun j => mipLevelSize bs (w / 2 ^ j) (h / 2 ^ j))).sum := by
        rw [add_assoc, mipSum_shift]
      rw [ew, eh, eo]
      have el : level + 1 + k = level + (k + 1) := by omega
      rw [el]

/-- Claim C7: for a block-compressed texture, level `k` of the mip loop
reads at the offset accumulated from the previous level sizes, has
dimensions halved `k` times, and uploads
`blockSize * (width/4) * (height/4)` bytes (integer division), clamped
to exactly one full block when either dimension is below 4, with block
size 8 for DXT1 and 16 for DXT5. -/
theorem loadTextureCompressed_level_layout
    (format : CompressedTextureFormat) (sizeX sizeY mipCount k : Nat)
    (hk : k < mipCount) :
    (loadTextureCompressed format sizeX sizeY mipCount)[k]? =
      some { level := k
             offset := ((List.range k).map
               (fun j => mipLevelSize (blockSize format)
                 (sizeX / 2 ^ j) (sizeY / 2 ^ j))).sum
             width := sizeX / 2 ^ k
             height := sizeY / 2 ^ k
             byteLength := mipLevelSize (blockSize format)
               (sizeX / 2 ^ k) (sizeY / 2 ^ k) } ∧
    mipLevelSize (blockSize format) (sizeX / 2 ^ k) (sizeY / 2 ^ k)
      = (if sizeX / 2 ^ k < 4 ∨ sizeY / 2 ^ k < 4 then blockSize format
         else blockSize format * (sizeX / 2 ^ k / 4) * (sizeY / 2 ^ k / 4)) ∧
    blockSize CompressedTextureFormat.dxt1 = 8 ∧
    blockSize CompressedTextureFormat.dxt5 = 16 := by
  refine ⟨?_, rfl, rfl, rfl⟩
  have h := compressedMipLevels_getElem (blockSize format) mipCount 0 0
    sizeX sizeY k hk
  simpa [loadTextureCompressed] using h

theorem loadTextureCompressed_level_layout_witness :
    (loadTextureCompressed CompressedTextureFormat.dxt1 8 8 4)[2]? =
      some { level := 2, offset := 40, width := 2, height := 2
             byteLength := 8 } := by
  have h := loadTextureCompressed_level_layout
    CompressedTextureFormat.dxt1 8 8 4 2 (by decide)
  rw [h.1]
  decide

/-- `_computeReflectionMatrix`: the Householder-style reflection about
the plane `(x, y, z, w)`, transcribed entry for entry from the glm
column-major constructor into row-column convention. -/
def computeReflectionMatrix (plane : OvrAvatarVector4f) : Mat4 :=
  Matrix.of
    ![![1 - 2 * plane.x * plane.x, -2 * plane.y * plane.x,
       -2 * plane.z * plane.x, 0],
      ![-2 * plane.x * plane.y, 1 - 2 * plane.y * plane.y,
       -2 * plane.z * plane.y, 0],
      ![-2 * plane.x * plane.z, -2 * plane.y * plane.z,
       1 - 2 * plane.z * plane.z, 0],
      ![-2 * plane.w * plane.x, -2 * plane.w * plane.y,
       -2 * plane.w * plane.z, 1]]

/-- Claim C9: for a plane whose normal part (x, y, z) is a unit vector,
`_computeReflectionMatrix` yields an involution: the matrix multiplied
by itself is the identity, so it is its own inverse. -/
theorem computeReflectionMatrix_involution (plane : OvrAvatarVector4f)
    (hunit : plane.x ^ 2 + plane.y ^ 2 + plane.z ^ 2 = 1) :
    computeReflectionMatrix plane * computeReflectionMatrix plane = 1 := by
  obtain ⟨x, y, z, w⟩ := plane
  simp only at hunit
  ext i j
  fin_cases i <;> fin_cases j <;>
    simp [computeReflectionMatrix, Matrix.mul_apply, Fin.sum_univ_four,
      Matrix.vecHead, Matrix.vecTail, Matrix.one_apply]
  all_goals
    first
      | linear_combination (4 * x ^ 2) * hunit
      | linear_combination (4 * y ^ 2) * hunit
      | linear_combination (4 * z ^ 2) * hunit
      | linear_combination (4 * x * y) * hunit
      | linear_combination (4 * x * z) * hunit
      | linear_combination (4 * y * z) * hunit
      | linear_combination (4 * w * x) * hunit
      | linear_combination (4 * w * y) * hunit
      | linear_combination (4 * w * z) * hunit

theorem computeReflectionMatrix_involution_witness :
    ((⟨1, 0, 0, 5⟩ : OvrAvatarVector4f).x ^ 2
      + (⟨1, 0, 0, 5⟩ : OvrAvatarVector4f).y ^ 2
      + (⟨1, 0, 0, 5⟩ : OvrAvatarVector4f).z ^ 2 = 1) ∧
    computeReflectionMatrix ⟨1, 0, 0, 5⟩
      * computeReflectionMatrix ⟨1, 0, 0, 5⟩ = 1 := by
  have hunit : ((⟨1, 0, 0, 5⟩ : OvrAvatarVector4f).x ^ 2
      + (⟨1, 0, 0, 5⟩ : OvrAvatarVector4f).y ^ 2
      + (⟨1, 0, 0, 5⟩ : OvrAvatarVector4f).z ^ 2 = 1) := by norm_num
  exact ⟨hunit, computeReflectionMatrix_involution ⟨1, 0, 0, 5⟩ hunit⟩
